import Mathlib

/-!
Verification of the fetch/normalize/validate pipeline of the two MCP
integration servers (HEB shopping-list GraphQL integration and the
AllRecipes scrape integration).

The TypeScript sources are shallowly embedded: each relevant function is
translated into an executable Lean definition.  JavaScript semantics that
matter here are modelled explicitly:

* optional chaining `a?.b` on possibly-absent values is `Option.bind`;
* `a || b` on strings treats the empty string as falsy, and on numbers
  treats `0` as falsy;
* `String.prototype.includes` is substring containment on character lists;
* reading a property of `undefined` (an unguarded `a.b` where `a` is
  absent) is a thrown `TypeError`, modelled with `Except`;
* JavaScript numbers that are only carried through (prices, counts) are
  modelled opaquely as `Int`; no arithmetic is performed on them.
-/

/-! ## JavaScript semantics helpers -/

/-- JS numbers carried opaquely through the pipeline (prices, counts,
quantities).  No fractional arithmetic is performed on any of them in the
embedded code, so `Int` is an adequate carrier. -/
abbrev JNum := Int

/-- `a || b` for JS strings where `a` may be `undefined`: `undefined` and
the empty string are falsy. -/
def jsOrStr (a b : Option String) : Option String :=
  match a with
  | none => b
  | some s => if s = "" then b else some s

/-- `a || d` for a JS number that may be `undefined`: `undefined` and `0`
are falsy. -/
def jsOrNum (a : Option JNum) (d : JNum) : JNum :=
  match a with
  | none => d
  | some n => if n = 0 then d else n

/-- Whether `pat` occurs at the start of `cs` (helper for substring
containment). -/
def charsStartWith : List Char → List Char → Bool
  | [], _ => true
  | _ :: _, [] => false
  | p :: ps, c :: cs => p = c && charsStartWith ps cs

/-- Substring containment on character lists (helper for
`strIncludes`). -/
def charsContain (pat : List Char) : List Char → Bool
  | [] => pat.isEmpty
  | c :: cs => charsStartWith pat (c :: cs) || charsContain pat cs

/-- `hay.includes(needle)` from JS: substring containment. -/
def strIncludes (hay needle : String) : Bool :=
  charsContain needle.toList hay.toList

/-- `s.toLowerCase()` from JS (ASCII case folding, which is all the
embedded code relies on). -/
def jsToLower (s : String) : String :=
  String.mk (s.toList.map Char.toLower)

/-- `s.trim()` from JS: strip leading and trailing whitespace.  (Lean's
own `String.trim` is extensionally the same but is defined through
`Substring` primitives that do not reduce in the kernel; this executable
form does.) -/
def jsTrim (s : String) : String :=
  String.mk (((s.toList.dropWhile Char.isWhitespace).reverse.dropWhile Char.isWhitespace).reverse)

/-! ## Error taxonomy (`src/utils/errors.ts`) -/

/-- The typed error taxonomy of the HEB integration
(`HEBError` and its subclasses), each carrying its human-readable
message. -/
inductive HEBErr where
  | authentication (message : String)
  | network (message : String)
  | validation (message : String)
  | notFound (message : String)
  | rateLimit (message : String)
  | hebError (message : String)
deriving DecidableEq, Repr

/-! ## Input validators (`src/utils/validation.ts`) -/

/-- `validateNonEmpty`: trims and rejects empty strings. -/
def validateNonEmpty (value : Option String) (fieldName : String) : Except HEBErr String :=
  match value with
  | none => .error (.validation (fieldName ++ " cannot be empty"))
  | some v =>
    if (jsTrim v).length = 0 then .error (.validation (fieldName ++ " cannot be empty"))
    else .ok (jsTrim v)

/-- `validatePositive`: rejects numbers `≤ 0`. -/
def validatePositive (value : JNum) (fieldName : String) : Except HEBErr JNum :=
  if value ≤ 0 then .error (.validation (fieldName ++ " must be a positive number"))
  else .ok value

/-- One hexadecimal digit of the UUID pattern `[0-9a-f]`, case
insensitive (the regex carries the `i` flag). -/
def isUuidHexDigit (c : Char) : Bool :=
  ('0' ≤ c && c ≤ '9') || ('a' ≤ c && c ≤ 'f') || ('A' ≤ c && c ≤ 'F')

/-- Consume exactly `n` hex digits, returning the rest of the input
(models one `[0-9a-f]{n}` group of the UUID regex). -/
def matchHexRun : Nat → List Char → Option (List Char)
  | 0, cs => some cs
  | _ + 1, [] => none
  | n + 1, c :: cs => if isUuidHexDigit c then matchHexRun n cs else none

/-- Consume one literal character (models a literal `-` of the UUID
regex). -/
def matchLit (lit : Char) : List Char → Option (List Char)
  | [] => none
  | c :: cs => if c = lit then some cs else none

/-- The anchored regex
`/^[0-9a-f]{8}-[0-9a-f]{4}-[0-9a-f]{4}-[0-9a-f]{4}-[0-9a-f]{12}$/i`
from `validateListId`. -/
def uuidRegexTest (s : String) : Bool :=
  ((((((((matchHexRun 8 s.toList).bind (matchLit '-')).bind
      (matchHexRun 4)).bind (matchLit '-')).bind
      (matchHexRun 4)).bind (matchLit '-')).bind
      (matchHexRun 4)).bind (matchLit '-')).bind
      (matchHexRun 12) = some []

/-- `validateListId`: trim, test the UUID regex, return the trimmed value
or throw a `ValidationError`. -/
def validateListId (listId : String) : Except HEBErr String :=
  let trimmed := jsTrim listId
  if uuidRegexTest trimmed then .ok trimmed
  else .error (.validation "List ID must be a valid UUID")

/-- `validateProductId`: trim, test `/^\d+$/`, return the trimmed value
or throw a `ValidationError`. -/
def validateProductId (productId : String) : Except HEBErr String :=
  let trimmed := jsTrim productId
  if trimmed.toList ≠ [] && trimmed.toList.all (fun c => '0' ≤ c && c ≤ '9')
  then .ok trimmed
  else .error (.validation "Product ID must be a numeric string")

/-! ## Request builders (`src/api/queries.ts`) -/

/-- The inner `{ productId }` object of one add-to-list entry. -/
structure AddItemRef where
  productId : String
deriving DecidableEq, Repr

/-- One `{ item: { productId } }` entry of the `listItems` array. -/
structure AddListItem where
  item : AddItemRef
deriving DecidableEq, Repr

/-- The fixed `page` sort object shared by the mutations. -/
structure PageSort where
  sort : String
  sortDirection : String
deriving DecidableEq, Repr

/-- The `input` variable of `addToShoppingListV2`. -/
structure AddToListInput where
  listId : String
  listItems : List AddListItem
  page : PageSort
deriving DecidableEq, Repr

/-- The persisted query request built by `createAddToListQuery`
(operation name, persisted-query hash and variables). -/
structure AddToListQuery where
  operationName : String
  sha256Hash : String
  input : AddToListInput
deriving DecidableEq, Repr

/-- The `input` variable of `deleteShoppingListItems`. -/
structure RemoveFromListInput where
  listId : String
  itemIds : List String
  page : PageSort
deriving DecidableEq, Repr

/-- The persisted query request built by `createRemoveFromListQuery`. -/
structure RemoveFromListQuery where
  operationName : String
  sha256Hash : String
  input : RemoveFromListInput
deriving DecidableEq, Repr

/-- `quantities?.[index]`: optional index into the optional quantities
array. -/
def lookupQty (quantities : Option (List JNum)) (index : Nat) : Option JNum :=
  quantities.bind (fun qs => qs[index]?)

/-- `quantities?.[index] || 1`: an absent entry and a `0` entry (falsy)
both give quantity `1`. -/
def jsQty (q : Option JNum) : JNum :=
  match q with
  | none => 1
  | some n => if n = 0 then 1 else n

/-- The expansion loop of `createAddToListQuery`: for each product at
position `index` (starting from `index`), push the product id `qty`
times, where `qty = quantities?.[index] || 1`.  A `for (let i = 0; i <
qty; i++)` loop body runs `qty.toNat` times. -/
def expandFrom (quantities : Option (List JNum)) : List String → Nat → List String
  | [], _ => []
  | productId :: rest, index =>
    List.replicate (jsQty (lookupQty quantities index)).toNat productId
      ++ expandFrom quantities rest (index + 1)

/-- `expandedProductIds` from `createAddToListQuery`. -/
def expandProductIds (productIds : List String) (quantities : Option (List JNum)) : List String :=
  expandFrom quantities productIds 0

/-- `createAddToListQuery` (`src/api/queries.ts`): expand the
`(productId, quantity)` pairs into repeated single-unit entries and build
the persisted-query payload. -/
def createAddToListQuery (listId : String) (productIds : List String)
    (quantities : Option (List JNum)) : AddToListQuery :=
  let expandedProductIds := expandProductIds productIds quantities
  let listItems := expandedProductIds.map (fun productId => AddListItem.mk (AddItemRef.mk productId))
  { operationName := "addToShoppingListV2"
    sha256Hash := "6b1534f6270004656ac14944f790a993822fba67fe24c9558713016cea2217c8"
    input :=
      { listId := listId
        listItems := listItems
        page := { sort := "CATEGORY", sortDirection := "ASC" } } }

/-- `createRemoveFromListQuery` (`src/api/queries.ts`). -/
def createRemoveFromListQuery (listId : String) (itemIds : List String) : RemoveFromListQuery :=
  { operationName := "deleteShoppingListItems"
    sha256Hash := "d680a2e6c47fe0f832af2628378af8e17da7d448c46b15e799d609a56aa13e69"
    input :=
      { listId := listId
        itemIds := itemIds
        page := { sort := "CATEGORY", sortDirection := "ASC" } } }

/-! ## Transport / client (`src/api/client.ts`, `HEBGraphQLClient.execute`) -/

/-- One entry of the GraphQL `errors` array (only the message is used by
the client). -/
structure GraphQLErrorEntry where
  message : String
deriving DecidableEq, Repr

/-- The parsed 2xx response envelope `{ data?, errors? }`. -/
structure GraphQLResponseEnvelope (T : Type) where
  dataField : Option T
  errors : Option (List GraphQLErrorEntry)
deriving DecidableEq, Repr

/-- `response.ok` of the Fetch API: HTTP status in 200–299. -/
def fetchOk (status : Nat) : Bool :=
  200 ≤ status && status ≤ 299

/-- The joined error message: `errors.map(e => e.message).join(', ')`. -/
def joinedErrorMessages (errs : List GraphQLErrorEntry) : String :=
  String.intercalate ", " (errs.map (fun e => e.message))

/-- The authentication heuristic of `execute`: the lower-cased joined
message contains `unauthorized` or `unauthenticated`. -/
def mentionsAuthFailure (joined : String) : Bool :=
  strIncludes (jsToLower joined) "unauthorized" || strIncludes (jsToLower joined) "unauthenticated"

/-- The outcome classification of `HEBGraphQLClient.execute`, as a
function of the HTTP status, the reason phrase and (for 2xx responses)
the parsed envelope.  Follows the source line by line: 401/403, then
429, then any other non-ok status, then the GraphQL `errors` array, then
missing `data`. -/
def executeClassify {T : Type} (status : Nat) (statusText : String)
    (body : GraphQLResponseEnvelope T) : Except HEBErr T :=
  if status = 401 ∨ status = 403 then
    .error (.authentication "Invalid or expired authentication. Please update your HEB cookies.")
  else if status = 429 then
    .error (.rateLimit "Rate limit exceeded. Please wait a moment before trying again.")
  else if fetchOk status = false then
    .error (.network ("HTTP error " ++ toString status ++ ": " ++ statusText))
  else
    match body.errors with
    | some errs =>
      if 0 < errs.length then
        let errorMessages := joinedErrorMessages errs
        if mentionsAuthFailure errorMessages then
          .error (.authentication "Authentication failed. Please update your HEB cookies.")
        else
          .error (.hebError ("GraphQL error: " ++ errorMessages))
      else
        match body.dataField with
        | none => .error (.hebError "No data returned from HEB API")
        | some d => .ok d
    | none =>
      match body.dataField with
      | none => .error (.hebError "No data returned from HEB API")
      | some d => .ok d

/-! ## Sparse upstream envelopes

The upstream JSON is dynamically typed: any field can be absent at
runtime, whatever the declared TypeScript interface says.  Every field is
therefore modelled as an `Option`.  A thrown `TypeError` (reading a
property of `undefined` through an unguarded access) is an explicit
error outcome of the normalizer. -/

/-- A runtime fault of a normalizer. -/
inductive NormalizeErr where
  /-- A JS `TypeError` from reading a property of `undefined`. -/
  | typeError
  /-- A thrown `ValidationError` (e.g. "list not found"). -/
  | validation (message : String)
deriving DecidableEq, Repr

/-- One `{ url, size }` image entry. -/
structure SparseImage where
  url : Option String
  size : Option String
deriving DecidableEq, Repr

/-- `salePrice: { amount }`. -/
structure SparseSalePrice where
  amount : Option JNum
deriving DecidableEq, Repr

/-- One `contextPrices` entry `{ context, salePrice }`. -/
structure SparseContextPrice where
  context : Option String
  salePrice : Option SparseSalePrice
deriving DecidableEq, Repr

/-- One SKU `{ contextPrices, customerFriendlySize }`. -/
structure SparseSKU where
  contextPrices : Option (List SparseContextPrice)
  customerFriendlySize : Option String
deriving DecidableEq, Repr

/-- `brand: { name }`. -/
structure SparseBrand where
  name : Option String
deriving DecidableEq, Repr

/-- `inventory: { inventoryState }`. -/
structure SparseInventory where
  inventoryState : Option String
deriving DecidableEq, Repr

/-- One product entry of the search grid. -/
structure SparseSearchItem where
  id : Option String
  fullDisplayName : Option String
  SKUs : Option (List SparseSKU)
  productImageUrls : Option (List SparseImage)
  brand : Option SparseBrand
  inventory : Option SparseInventory
deriving DecidableEq, Repr

/-- `searchGrid: { items }`. -/
structure SparseSearchGrid where
  items : Option (List SparseSearchItem)
deriving DecidableEq, Repr

/-- `productSearchItems: { searchGrid }`. -/
structure SparseProductSearch where
  searchGrid : Option SparseSearchGrid
deriving DecidableEq, Repr

/-- The whole `productSearchItems` response envelope. -/
structure SparseSearchEnvelope where
  productSearchItems : Option SparseProductSearch
deriving DecidableEq, Repr

/-- The normalized `Product` as actually produced at runtime: `id` and
`fullDisplayName` are copied without a presence check, so the output
carries `Option`s. -/
structure NProduct where
  productId : Option String
  name : Option String
  price : Option JNum
  imageUrl : Option String
  brand : Option String
  size : Option String
  availability : String
deriving DecidableEq, Repr

/-- The image selection shared verbatim by `searchProducts` and
`getListItems`:
`arr?.find(img => img.size === 'MEDIUM')?.url || arr?.[0]?.url`. -/
def selectImageUrl (arr : Option (List SparseImage)) : Option String :=
  let mediumImage := arr.bind (fun imgs => imgs.find? (fun img => img.size = some "MEDIUM"))
  jsOrStr (mediumImage.bind (fun img => img.url))
    ((arr.bind (fun imgs => imgs.head?)).bind (fun img => img.url))

/-- `response.productSearchItems?.searchGrid?.items || []` (a present but
empty array is truthy in JS only for objects — an array is an object, so
`[]` is kept as is; an absent chain yields `[]`). -/
def searchGridItems (response : SparseSearchEnvelope) : List SparseSearchItem :=
  ((response.productSearchItems.bind (fun ps => ps.searchGrid)).bind (fun sg => sg.items)).getD []

/-- The per-product mapping body of `searchProducts`.  The only
unguarded access is `p.inventory.inventoryState`: when `inventory` is
absent this is a thrown `TypeError`. -/
def normalizeSearchItem (p : SparseSearchItem) : Except NormalizeErr NProduct :=
  let sku := p.SKUs.bind (fun skus => skus.head?)
  let onlinePrice := sku.bind (fun s =>
    s.contextPrices.bind (fun cps => cps.find? (fun cp => cp.context = some "ONLINE")))
  let price := onlinePrice.bind (fun op => op.salePrice.bind (fun sp => sp.amount))
  let imageUrl := selectImageUrl p.productImageUrls
  match p.inventory with
  | none => .error .typeError
  | some inv =>
    .ok
      { productId := p.id
        name := p.fullDisplayName
        price := price
        imageUrl := imageUrl
        brand := p.brand.bind (fun b => b.name)
        size := sku.bind (fun s => s.customerFriendlySize)
        availability :=
          if inv.inventoryState = some "IN_STOCK" then "IN_STOCK"
          else if inv.inventoryState = some "LOW_STOCK" then "LOW_STOCK"
          else "OUT_OF_STOCK" }

/-- The response-normalization part of `searchProducts`
(`src/tools/search-products.ts`): take the (possibly absent) item array
and map each item. -/
def searchProductsNormalize (response : SparseSearchEnvelope) :
    Except NormalizeErr (List NProduct) :=
  (searchGridItems response).mapM normalizeSearchItem

/-! ## List-items normalizer (`src/tools/get-list-items.ts`) -/

/-- `product: { id, fullDisplayName, productImageUrls }` of one list
item. -/
structure SparseListProduct where
  id : Option String
  fullDisplayName : Option String
  productImageUrls : Option (List SparseImage)
deriving DecidableEq, Repr

/-- `itemPrice: { salePrice }`. -/
structure SparseItemPrice where
  salePrice : Option JNum
deriving DecidableEq, Repr

/-- One raw shopping-list item. -/
structure SparseShoppingListItem where
  id : Option String
  product : Option SparseListProduct
  quantity : Option JNum
  checked : Option Bool
  itemPrice : Option SparseItemPrice
deriving DecidableEq, Repr

/-- `thisPage: { totalCount }`. -/
structure SparseThisPage where
  totalCount : Option JNum
deriving DecidableEq, Repr

/-- `itemPage: { items, thisPage }`. -/
structure SparseItemPage where
  items : Option (List SparseShoppingListItem)
  thisPage : Option SparseThisPage
deriving DecidableEq, Repr

/-- The raw `getShoppingListV2` list object. -/
structure SparseShoppingList where
  id : Option String
  name : Option String
  created : Option String
  updated : Option String
  itemPage : Option SparseItemPage
deriving DecidableEq, Repr

/-- The whole `getShoppingListV2` response envelope. -/
structure SparseListEnvelope where
  getShoppingListV2 : Option SparseShoppingList
deriving DecidableEq, Repr

/-- The normalized `ListItem` as actually produced at runtime. -/
structure NListItem where
  id : Option String
  productId : Option String
  name : Option String
  quantity : Option JNum
  checked : Option Bool
  price : Option JNum
  imageUrl : Option String
deriving DecidableEq, Repr

/-- The normalized `ShoppingListDetail` as actually produced at
runtime. -/
structure NListDetail where
  id : Option String
  name : Option String
  itemCount : JNum
  createdAt : Option String
  updatedAt : Option String
  items : List NListItem
deriving DecidableEq, Repr

/-- `list.itemPage?.items || []`. -/
def listPageItems (list : SparseShoppingList) : List SparseShoppingListItem :=
  (list.itemPage.bind (fun ip => ip.items)).getD []

/-- The per-item mapping body of `getListItems`.  The accesses
`item.product.productImageUrls`, `item.product.id` and
`item.product.fullDisplayName` are unguarded: when `product` is absent
they are a thrown `TypeError`. -/
def normalizeListItem (item : SparseShoppingListItem) : Except NormalizeErr NListItem :=
  match item.product with
  | none => .error .typeError
  | some product =>
    .ok
      { id := item.id
        productId := product.id
        name := product.fullDisplayName
        quantity := item.quantity
        checked := item.checked
        price := item.itemPrice.bind (fun ip => ip.salePrice)
        imageUrl := selectImageUrl product.productImageUrls }

/-- The response-normalization part of `getListItems`: throw a
`ValidationError` when `getShoppingListV2` is absent ("list not found"),
otherwise map the (possibly absent) item array and assemble the
detail. -/
def getListItemsNormalize (listId : String) (response : SparseListEnvelope) :
    Except NormalizeErr NListDetail :=
  match response.getShoppingListV2 with
  | none =>
    .error (.validation ("Shopping list with ID \"" ++ listId ++ "\" not found"))
  | some list =>
    match (listPageItems list).mapM normalizeListItem with
    | .error e => .error e
    | .ok items =>
      .ok
        { id := list.id
          name := list.name
          itemCount :=
            jsOrNum ((list.itemPage.bind (fun ip => ip.thisPage)).bind (fun tp => tp.totalCount)) 0
          createdAt := list.created
          updatedAt := list.updated
          items := items }

/-! ## Remove-from-list (`src/tools/remove-from-list.ts`) -/

/-- The result object of `removeFromList`.  `listId` and `listName` are
copied from the delete response without a presence check, so they carry
`Option`s. -/
structure RemoveResult where
  success : Bool
  removedCount : Nat
  listId : Option String
  listName : Option String
  message : String
deriving DecidableEq, Repr

/-- A JS template literal interpolation: `undefined` renders as the
string `undefined`. -/
def jsInterp (o : Option String) : String :=
  o.getD "undefined"

/-- The `deleteShoppingListItemsV2` response object. -/
structure SparseDeleteList where
  id : Option String
  name : Option String
deriving DecidableEq, Repr

/-- The case-insensitive partial name match of `removeFromList`:
`item.name.toLowerCase().includes(searchTerm)` where `searchTerm` is the
lower-cased product name. -/
def itemNameMatches (productName : String) (itemName : String) : Bool :=
  strIncludes (jsToLower itemName) (jsToLower productName)

/-- A normalized list item restricted to the fields `removeFromList`
reads (`id`, `name`), with both present (the source reads them
unguarded). -/
structure RItem where
  id : String
  name : String
deriving DecidableEq, Repr

/-- The `productName` branch of `removeFromList`: fetch the list items,
throw `NotFoundError` when the list is empty or nothing matches,
otherwise collect the matching item ids, build the delete request and —
given the upstream delete response — assemble the result.  The network
round trips are abstracted by passing the fetched `items` and the delete
response `deleteResp` as arguments. -/
def removeFromListByName (listId : String) (productName : String)
    (items : List RItem) (deleteResp : Option SparseDeleteList) :
    Except HEBErr (RemoveFromListQuery × RemoveResult) :=
  if items.length = 0 then
    .error (.notFound "Items with ID \"in shopping list\" not found. Please verify and try again.")
  else
    let matchingItems := items.filter (fun item => itemNameMatches productName item.name)
    if matchingItems.length = 0 then
      .error (.notFound ("Item with ID \"" ++ productName ++ "\" not found. Please verify and try again."))
    else
      let itemIds := matchingItems.map (fun item => item.id)
      let query := createRemoveFromListQuery listId itemIds
      match deleteResp with
      | none => .error (.validation "Failed to remove items from shopping list")
      | some list =>
        .ok (query,
          { success := true
            removedCount := itemIds.length
            listId := list.id
            listName := list.name
            message := "Successfully removed " ++ toString itemIds.length
              ++ " item(s) from \"" ++ jsInterp list.name ++ "\"" })

/-! ## Tool-dispatch boundaries (`src/server.ts` and the allrecipes
server entry) -/

/-- A thrown JS error reaching a tool-call handler: either a Zod
validation error (carrying its formatted issues) or any other error
carrying its message. -/
inductive ThrownError where
  | zodError (message : String) (issues : List String)
  | error (message : String)
deriving DecidableEq, Repr

/-- `error.message` of a thrown error. -/
def ThrownError.messageOf : ThrownError → String
  | .zodError message _ => message
  | .error message => message

/-- A tool-call result: the text content plus the `isError` flag (absent
on success, `true` on the error-indicator shape). -/
structure ToolCallResult where
  text : String
  isError : Bool
deriving DecidableEq, Repr

/-- The HEB server's `CallToolRequestSchema` handler: run the dispatched
tool body (any known tool's schema parse + execution, abstracted as
`tools`), throw `Unknown tool` for an unknown name, and convert any
thrown error into the error-indicator result shape. -/
def hebCallToolHandler (toolName : String)
    (tools : String → Option (Except ThrownError String)) : ToolCallResult :=
  let body : Except ThrownError String :=
    match tools toolName with
    | some r => r
    | none => .error (.error ("Unknown tool: " ++ toolName))
  match body with
  | .ok text => { text := text, isError := false }
  | .error e => { text := "Error: " ++ e.messageOf, isError := true }

/-- The allrecipes server's `CallToolRequestSchema` handler: run the
dispatched tool body, rewrap a `ZodError` into a plain error with the
joined issues, and re-throw every error (the `Except.error` outcome
models the handler raising rather than returning). -/
def allrecipesCallToolHandler (toolName : String)
    (tools : String → Option (Except ThrownError String)) :
    Except ThrownError ToolCallResult :=
  let body : Except ThrownError String :=
    match tools toolName with
    | some r => r
    | none => .error (.error ("Unknown tool: " ++ toolName))
  match body with
  | .ok text => .ok { text := text, isError := false }
  | .error (.zodError _ issues) =>
    .error (.error ("Invalid arguments: " ++ String.intercalate ", " issues))
  | .error e => .error e

/-- Whether a tool invocation outcome escaped the dispatch boundary as a
thrown fault. -/
def escapedAsThrown : Except ThrownError ToolCallResult → Bool
  | .error _ => true
  | .ok _ => false

/-! ## Scrape integration, HTML fallback instruction filter
(`parseRecipeFromHtml` in the allrecipes scraper) -/

/-- The instruction-collection loop of the scraper's HTML fallback tier:
for each candidate element, take its text, trim it, and push the trimmed
text when it is truthy (non-empty) and longer than 10 characters —
`const text = $(el).text().trim(); if (text && text.length > 10)
instructions.push(text);`. -/
def collectInstructions (candidates : List String) : List String :=
  (candidates.map jsTrim).filter (fun text => text ≠ "" && 10 < text.length)

/-! ## Spec-side definitions

These definitions follow the wording of the specification (not the
source); the theorems below compare them with the embedded source
functions. -/

/-- Spec side: the quantity for the product at position `i`, "treating a
quantity missing because the quantities list is shorter than the product
list as 1". -/
def specQtyAt (quantities : List JNum) (i : Nat) : Nat :=
  match quantities[i]? with
  | some q => q.toNat
  | none => 1

/-- Spec side: "the sum of the quantities (treating a missing quantity
as 1)", one summand per product position. -/
def specQuantitySum (numProducts : Nat) (quantities : List JNum) : Nat :=
  ((List.range numProducts).map (specQtyAt quantities)).sum

/-- Spec side: the add-to-list entries "grouped by product in the input
order of the product identifiers, each entry carrying that product's
identifier". -/
def specGroupedEntries (productIds : List String) (quantities : List JNum) : List AddListItem :=
  (productIds.enum.map
    (fun p => List.replicate (specQtyAt quantities p.1) (AddListItem.mk (AddItemRef.mk p.2)))).flatten

/-- Spec side: the availability mapping table — upstream `IN_STOCK` maps
to `IN_STOCK`, `LOW_STOCK` to `LOW_STOCK`, anything else (absent or
unrecognized) to `OUT_OF_STOCK`. -/
def specAvailability (inventoryState : Option String) : String :=
  if inventoryState = some "IN_STOCK" then "IN_STOCK"
  else if inventoryState = some "LOW_STOCK" then "LOW_STOCK"
  else "OUT_OF_STOCK"

/-! ## Total normalizer images (proof helpers)

Total functions describing what a non-throwing normalizer run produces;
the theorems prove the `Except`-valued normalizers agree with them
whenever the unguarded nested objects are present. -/

/-- What `normalizeSearchItem` produces when it does not throw
(i.e. when `inventory` is present; on an absent `inventory` this total
variant picks the `OUT_OF_STOCK` default and is irrelevant). -/
def normalizeSearchItemOk (p : SparseSearchItem) : NProduct :=
  let sku := p.SKUs.bind (fun skus => skus.head?)
  let onlinePrice := sku.bind (fun s =>
    s.contextPrices.bind (fun cps => cps.find? (fun cp => cp.context = some "ONLINE")))
  { productId := p.id
    name := p.fullDisplayName
    price := onlinePrice.bind (fun op => op.salePrice.bind (fun sp => sp.amount))
    imageUrl := selectImageUrl p.productImageUrls
    brand := p.brand.bind (fun b => b.name)
    size := sku.bind (fun s => s.customerFriendlySize)
    availability := specAvailability (p.inventory.bind (fun inv => inv.inventoryState)) }

/-- What `normalizeListItem` produces when it does not throw (i.e. when
`product` is present). -/
def normalizeListItemOk (item : SparseShoppingListItem) : NListItem :=
  match item.product with
  | none =>
    { id := item.id, productId := none, name := none, quantity := item.quantity
      checked := item.checked, price := item.itemPrice.bind (fun ip => ip.salePrice)
      imageUrl := none }
  | some product =>
    { id := item.id
      productId := product.id
      name := product.fullDisplayName
      quantity := item.quantity
      checked := item.checked
      price := item.itemPrice.bind (fun ip => ip.salePrice)
      imageUrl := selectImageUrl product.productImageUrls }

/-- What `getListItemsNormalize` produces on a present list whose items
all carry their `product` object. -/
def listDetailOk (list : SparseShoppingList) : NListDetail :=
  { id := list.id
    name := list.name
    itemCount :=
      jsOrNum ((list.itemPage.bind (fun ip => ip.thisPage)).bind (fun tp => tp.totalCount)) 0
    createdAt := list.created
    updatedAt := list.updated
    items := (listPageItems list).map normalizeListItemOk }

/-- Decidable equality of `Except` outcomes (not provided by the core
library), used to evaluate concrete normalizer and handler runs. -/
instance {ε α : Type} [DecidableEq ε] [DecidableEq α] : DecidableEq (Except ε α) := by
  intro a b
  cases a <;> cases b
  case error.error x y =>
    exact if h : x = y then isTrue (by rw [h]) else isFalse (fun he => h (by injection he))
  case error.ok x y => exact isFalse (fun he => Except.noConfusion he)
  case ok.error x y => exact isFalse (fun he => Except.noConfusion he)
  case ok.ok x y =>
    exact if h : x = y then isTrue (by rw [h]) else isFalse (fun he => h (by injection he))

/-! # Theorems -/

/-! ## Shared helper lemmas -/

/-- A successful indexed lookup yields a member of the list. -/
theorem mem_of_lookup {α : Type} {l : List α} {i : Nat} {a : α} (h : l[i]? = some a) : a ∈ l := by
  have hi : i < l.length := by
    by_contra hh
    simp [List.getElem?_eq_none (Nat.le_of_not_lt hh)] at h
  rw [List.getElem?_eq_getElem hi] at h
  cases h
  exact List.getElem_mem hi

/-- `mapM` over `Except` succeeds pointwise when every element does. -/
theorem mapM_ok_of_agree {α β ε : Type} (f : α → Except ε β) (g : α → β) :
    ∀ l : List α, (∀ a ∈ l, f a = .ok (g a)) → l.mapM f = .ok (l.map g) := by
  intro l
  induction l with
  | nil => intro _; rfl
  | cons a t ih =>
    intro h
    rw [List.mapM_cons, h a (by simp), ih (fun x hx => h x (by simp [hx]))]
    rfl

/-- Closed form of the quantity-expansion loop: the expansion is the
concatenation of one replicated block per enumerated product. -/
theorem expandFrom_eq_flatten (qs : Option (List JNum)) :
    ∀ (pids : List String) (n : Nat),
      expandFrom qs pids n =
        ((List.enumFrom n pids).map
          (fun p => List.replicate (jsQty (lookupQty qs p.1)).toNat p.2)).flatten := by
  intro pids
  induction pids with
  | nil => intro n; rfl
  | cons p rest ih => intro n; simp [expandFrom, List.enumFrom_cons, ih (n + 1)]

/-- With no quantities array every product expands to itself once. -/
theorem expandFrom_none : ∀ (pids : List String) (n : Nat), expandFrom none pids n = pids := by
  intro pids
  induction pids with
  | nil => intro n; rfl
  | cons p rest ih => intro n; simp [expandFrom, lookupQty, jsQty, ih]

/-- The expansion introduces no product identifier that was not listed. -/
theorem mem_of_mem_expandFrom (qs : Option (List JNum)) :
    ∀ (pids : List String) (n : Nat) (a : String), a ∈ expandFrom qs pids n → a ∈ pids := by
  intro pids
  induction pids with
  | nil => intro n a h; simp [expandFrom] at h
  | cons p rest ih =>
    intro n a h
    simp only [expandFrom, List.mem_append] at h
    rcases h with h | h
    · exact (List.eq_of_mem_replicate h) ▸ List.mem_cons_self p rest
    · exact List.mem_cons_of_mem p (ih (n + 1) a h)

/-- A product listed exactly once whose quantity entry is `0` contributes
exactly one expanded entry. -/
theorem count_expandFrom_zeroQty (qs : List JNum) :
    ∀ (pids : List String) (n i : Nat) (pid : String),
      pids[i]? = some pid → qs[n + i]? = some 0 → pids.count pid = 1 →
      (expandFrom (some qs) pids n).count pid = 1 := by
  intro pids
  induction pids with
  | nil => intro n i pid h1 _ _; simp at h1
  | cons p rest ih =>
    intro n i pid h1 h2 h3
    match i with
    | 0 =>
      have hp : p = pid := by simpa using h1
      subst hp
      have h2n : qs[n]? = some 0 := by simpa using h2
      have hzero : rest.count p = 0 := by
        have := h3
        rw [List.count_cons] at this
        simpa using this
      have hnotmem : p ∉ rest := List.count_eq_zero.mp hzero
      have hnotexp : p ∉ expandFrom (some qs) rest (n + 1) :=
        fun hm => hnotmem (mem_of_mem_expandFrom (some qs) rest (n + 1) p hm)
      have hq : lookupQty (some qs) n = some 0 := by simp [lookupQty, h2n]
      simp [expandFrom, hq, jsQty, List.count_append, List.count_eq_zero.mpr hnotexp]
    | i' + 1 =>
      have h1r : rest[i']? = some pid := by simpa using h1
      have hp : p ≠ pid := by
        intro he
        subst he
        have hmem : p ∈ rest := mem_of_lookup h1r
        have hpos : 0 < rest.count p := List.count_pos_iff.mpr hmem
        have := h3
        rw [List.count_cons] at this
        simp at this
        omega
      have h3r : rest.count pid = 1 := by
        have := h3
        rw [List.count_cons] at this
        simpa [hp] using this
      have h2r : qs[n + 1 + i']? = some 0 := by
        have harith : n + 1 + i' = n + (i' + 1) := by omega
        rw [harith]
        exact h2
      have := ih (n + 1) i' pid h1r h2r h3r
      simp [expandFrom, List.count_append, List.count_replicate, hp, this]

/-- Claim C1: for every call to `createAddToListQuery` with a
product-identifier list and a quantities list of positive integers, the
`listItems` array of the built payload is exactly the per-product
grouping of the spec (one block per product in input order, each entry
carrying that product's identifier), and its length is the sum of the
quantities, a missing quantity counting as 1. -/
theorem createAddToListQuery_grouped_sum (lid : String) (pids : List String)
    (qs : List JNum) (hpos : ∀ q ∈ qs, 0 < q) :
    (createAddToListQuery lid pids (some qs)).input.listItems = specGroupedEntries pids qs ∧
    ((createAddToListQuery lid pids (some qs)).input.listItems).length
      = specQuantitySum pids.length qs := by
  have key : ∀ i : Nat, (jsQty (lookupQty (some qs) i)).toNat = specQtyAt qs i := by
    intro i
    simp only [lookupQty, Option.bind_some]
    cases hq : qs[i]? with
    | none => simp [jsQty, specQtyAt, hq]
    | some q =>
      have hmem : q ∈ qs := mem_of_lookup hq
      have : q ≠ 0 := ne_of_gt (hpos q hmem)
      simp [jsQty, specQtyAt, hq, this]
  have hmain : (createAddToListQuery lid pids (some qs)).input.listItems
      = specGroupedEntries pids qs := by
    show (expandProductIds pids (some qs)).map (fun productId =>
        AddListItem.mk (AddItemRef.mk productId)) = specGroupedEntries pids qs
    rw [expandProductIds, expandFrom_eq_flatten, List.map_flatten, List.map_map]
    show (List.map _ (List.enumFrom 0 pids)).flatten = specGroupedEntries pids qs
    rw [specGroupedEntries]
    show (List.map _ (List.enumFrom 0 pids)).flatten = (List.map _ (List.enumFrom 0 pids)).flatten
    congr 1
    apply List.map_congr_left
    intro p _
    simp only [Function.comp, List.map_replicate]
    rw [key p.1]
  refine ⟨hmain, ?_⟩
  rw [hmain, specGroupedEntries, specQuantitySum, List.length_flatten, List.map_map]
  have hcomp : (List.length ∘ fun p : Nat × String =>
      List.replicate (specQtyAt qs p.1) (AddListItem.mk (AddItemRef.mk p.2)))
      = (fun p : Nat × String => specQtyAt qs p.1) := by
    funext p
    simp
  rw [hcomp]
  have : (fun p : Nat × String => specQtyAt qs p.1)
      = (specQtyAt qs) ∘ Prod.fst := rfl
  rw [this, ← List.map_map, List.enum_map_fst]

/-- Witness for C1: two products with quantities 2 and 3 expand to five
entries. -/
theorem createAddToListQuery_grouped_sum_witness :
    (createAddToListQuery "list-1" ["prod-1", "prod-2"] (some [2, 3])).input.listItems.length
      = specQuantitySum 2 [2, 3] := by
  have h := createAddToListQuery_grouped_sum "list-1" ["prod-1", "prod-2"] [2, 3] (by decide)
  exact h.2

/-- Claim C9: a quantity entry equal to `0` (falsy in JS) at some index
does not drop that product from the payload — exactly one entry is
produced for it, the same as when the quantities array is missing
altogether. -/
theorem zero_quantity_not_dropped (lid pid : String) (pids : List String)
    (qs : List JNum) (i : Nat)
    (h1 : pids[i]? = some pid) (h2 : qs[i]? = some 0) (h3 : pids.count pid = 1) :
    ((createAddToListQuery lid pids (some qs)).input.listItems).countP
        (fun e => e.item.productId == pid) = 1 ∧
    ((createAddToListQuery lid pids none).input.listItems).countP
        (fun e => e.item.productId == pid) = 1 := by
  constructor
  · have hcount := count_expandFrom_zeroQty qs pids 0 i pid h1 (by simpa using h2) h3
    show ((expandProductIds pids (some qs)).map (fun productId =>
        AddListItem.mk (AddItemRef.mk productId))).countP (fun e => e.item.productId == pid) = 1
    rw [List.countP_map]
    exact hcount
  · show ((expandProductIds pids none).map (fun productId =>
        AddListItem.mk (AddItemRef.mk productId))).countP (fun e => e.item.productId == pid) = 1
    rw [List.countP_map]
    show (expandFrom none pids 0).count pid = 1
    rw [expandFrom_none]
    exact h3

/-- Witness for C9: quantity 0 at index 0 still yields one entry for
that product. -/
theorem zero_quantity_not_dropped_witness :
    ((createAddToListQuery "list-1" ["prod-1", "prod-2"] (some [0, 2])).input.listItems).countP
        (fun e => e.item.productId == "prod-1") = 1 := by
  exact (zero_quantity_not_dropped "list-1" "prod-1" ["prod-1", "prod-2"] [0, 2] 0
    (by decide) (by decide) (by decide)).1

/-- Claim C8: for every string that is already trimmed and already
matches the canonical UUID pattern case-insensitively, `validateListId`
returns that exact string unchanged — validation of an already-valid
UUID is the identity. -/
theorem validateListId_identity (s : String) (h1 : jsTrim s = s)
    (h2 : uuidRegexTest s = true) : validateListId s = .ok s := by
  simp [validateListId, h1, h2]

/-- Witness for C8: a concrete valid UUID (mixed case preserved). -/
theorem validateListId_identity_witness :
    validateListId "a1b2C3d4-E5f6-7890-abcd-ef1234567890"
      = .ok "a1b2C3d4-E5f6-7890-abcd-ef1234567890" :=
  validateListId_identity _ (by decide) (by decide)

/-- Claim C2: the GraphQL transport's outcome classification — 401/403
give an `AuthenticationError`, 429 a `RateLimitError`, any other non-2xx
a `NetworkError` carrying the status code and reason phrase; on 2xx, a
non-empty `errors` array gives an `AuthenticationError` when the joined
messages mention unauthorized/unauthenticated case-insensitively and a
generic upstream error carrying the joined message otherwise; no errors
and no data gives the generic "no data returned" error; otherwise the
data is returned. -/
theorem executeClassify_outcomes {T : Type} (status : Nat) (statusText : String)
    (body : GraphQLResponseEnvelope T) :
    ((status = 401 ∨ status = 403) →
      executeClassify status statusText body =
        .error (.authentication
          "Invalid or expired authentication. Please update your HEB cookies.")) ∧
    (status = 429 →
      executeClassify status statusText body =
        .error (.rateLimit "Rate limit exceeded. Please wait a moment before trying again.")) ∧
    (¬(status = 401 ∨ status = 403) → status ≠ 429 → fetchOk status = false →
      executeClassify status statusText body =
        .error (.network ("HTTP error " ++ toString status ++ ": " ++ statusText))) ∧
    (∀ errs, fetchOk status = true → body.errors = some errs → errs ≠ [] →
      (mentionsAuthFailure (joinedErrorMessages errs) = true →
        executeClassify status statusText body =
          .error (.authentication "Authentication failed. Please update your HEB cookies.")) ∧
      (mentionsAuthFailure (joinedErrorMessages errs) = false →
        executeClassify status statusText body =
          .error (.hebError ("GraphQL error: " ++ joinedErrorMessages errs)))) ∧
    (fetchOk status = true → (body.errors = none ∨ body.errors = some []) →
      body.dataField = none →
      executeClassify status statusText body =
        .error (.hebError "No data returned from HEB API")) ∧
    (∀ d, fetchOk status = true → (body.errors = none ∨ body.errors = some []) →
      body.dataField = some d →
      executeClassify status statusText body = .ok d) := by
  have hni : fetchOk status = true → ¬(status = 401 ∨ status = 403) ∧ status ≠ 429 := by
    intro hok
    simp [fetchOk] at hok
    constructor
    · rintro (h | h) <;> omega
    · omega
  refine ⟨?_, ?_, ?_, ?_, ?_, ?_⟩
  · intro h
    simp [executeClassify, h]
  · intro h
    subst h
    simp [executeClassify]
  · intro h1 h2 h3
    simp [executeClassify, h1, h2, h3]
  · intro errs hok herrs hne
    have hlen : 0 < errs.length := List.length_pos.mpr hne
    rcases hni hok with ⟨h1, h2⟩
    constructor
    · intro hauth
      simp [executeClassify, h1, h2, hok, herrs, hlen, hauth]
    · intro hauth
      simp [executeClassify, h1, h2, hok, herrs, hlen, hauth]
  · intro hok herrs hdata
    rcases hni hok with ⟨h1, h2⟩
    rcases herrs with h | h <;> simp [executeClassify, h1, h2, hok, h, hdata]
  · intro d hok herrs hdata
    rcases hni hok with ⟨h1, h2⟩
    rcases herrs with h | h <;> simp [executeClassify, h1, h2, hok, h, hdata]

/-- Witness for C2: one concrete invocation per classification branch. -/
theorem executeClassify_outcomes_witness :
    executeClassify (T := Nat) 401 "Unauthorized" ⟨none, none⟩ =
      .error (.authentication
        "Invalid or expired authentication. Please update your HEB cookies.") ∧
    executeClassify (T := Nat) 429 "Too Many Requests" ⟨none, none⟩ =
      .error (.rateLimit "Rate limit exceeded. Please wait a moment before trying again.") ∧
    executeClassify (T := Nat) 500 "Internal Server Error" ⟨none, none⟩ =
      .error (.network ("HTTP error " ++ toString 500 ++ ": " ++ "Internal Server Error")) ∧
    executeClassify (T := Nat) 200 "OK" ⟨none, some [⟨"Session Unauthorized"⟩]⟩ =
      .error (.authentication "Authentication failed. Please update your HEB cookies.") ∧
    executeClassify (T := Nat) 200 "OK" ⟨none, some [⟨"boom"⟩, ⟨"bust"⟩]⟩ =
      .error (.hebError ("GraphQL error: " ++ joinedErrorMessages [⟨"boom"⟩, ⟨"bust"⟩])) ∧
    executeClassify (T := Nat) 200 "OK" ⟨none, none⟩ =
      .error (.hebError "No data returned from HEB API") ∧
    executeClassify (T := Nat) 200 "OK" ⟨some 7, some []⟩ = .ok 7 := by
  refine ⟨?_, ?_, ?_, ?_, ?_, ?_, ?_⟩
  · exact (executeClassify_outcomes 401 "Unauthorized" ⟨none, none⟩).1 (Or.inl rfl)
  · exact (executeClassify_outcomes 429 "Too Many Requests" ⟨none, none⟩).2.1 rfl
  · exact (executeClassify_outcomes 500 "Internal Server Error" ⟨none, none⟩).2.2.1
      (by decide) (by decide) (by decide)
  · exact ((executeClassify_outcomes 200 "OK" ⟨none, some [⟨"Session Unauthorized"⟩]⟩).2.2.2.1
      [⟨"Session Unauthorized"⟩] (by decide) rfl (by decide)).1 (by decide)
  · exact ((executeClassify_outcomes 200 "OK" ⟨none, some [⟨"boom"⟩, ⟨"bust"⟩]⟩).2.2.2.1
      [⟨"boom"⟩, ⟨"bust"⟩] (by decide) rfl (by decide)).2 (by decide)
  · exact (executeClassify_outcomes 200 "OK" ⟨none, none⟩).2.2.2.2.1
      (by decide) (Or.inl rfl) rfl
  · exact (executeClassify_outcomes 200 "OK" ⟨some 7, some []⟩).2.2.2.2.2 7
      (by decide) (Or.inr rfl) rfl

/-- `normalizeSearchItem` agrees with its total image whenever the
item's `inventory` object is present. -/
theorem normalizeSearchItem_ok (p : SparseSearchItem) (h : p.inventory.isSome) :
    normalizeSearchItem p = .ok (normalizeSearchItemOk p) := by
  cases hinv : p.inventory with
  | none => simp [hinv] at h
  | some inv =>
    simp [normalizeSearchItem, normalizeSearchItemOk, hinv, specAvailability]

/-- `normalizeListItem` agrees with its total image whenever the item's
`product` object is present. -/
theorem normalizeListItem_ok (item : SparseShoppingListItem) (h : item.product.isSome) :
    normalizeListItem item = .ok (normalizeListItemOk item) := by
  cases hp : item.product with
  | none => simp [hp] at h
  | some product => simp [normalizeListItem, normalizeListItemOk, hp]

/-- The spec-side availability always lands in the three-value set. -/
theorem specAvailability_cases (st : Option String) :
    specAvailability st = "IN_STOCK" ∨ specAvailability st = "LOW_STOCK" ∨
    specAvailability st = "OUT_OF_STOCK" := by
  unfold specAvailability
  split
  · exact Or.inl rfl
  · split
    · exact Or.inr (Or.inl rfl)
    · exact Or.inr (Or.inr rfl)

/-- Claim C3 counterexample: a sparse search envelope whose top-level
object is present but whose single item lacks its `inventory` nested
object makes the search normalizer throw a `TypeError` (the unguarded
`p.inventory.inventoryState` access), refuting "the normalizer raises
only when the top-level expected object itself is entirely absent". -/
theorem sparse_normalizer_throws :
    searchProductsNormalize
      (SparseSearchEnvelope.mk (some (SparseProductSearch.mk (some (SparseSearchGrid.mk
        (some [SparseSearchItem.mk (some "100") (some "Basic Product") none none none none]))))))
      = .error .typeError := by
  rfl

/-- Claim C3 (amended): provided every search item carries its
`inventory` object and every list item carries its `product` object, the
normalizers never throw — absent arrays are treated as empty and absent
optional nested objects leave fields undefined; the list normalizer
raises (a "not found" `ValidationError`) exactly when the top-level list
object is absent. -/
theorem sparse_normalizers_total (env : SparseSearchEnvelope) (lid : String)
    (lenv : SparseListEnvelope) :
    ((∀ p ∈ searchGridItems env, p.inventory.isSome) →
      searchProductsNormalize env = .ok ((searchGridItems env).map normalizeSearchItemOk)) ∧
    (∀ list, lenv.getShoppingListV2 = some list →
      (∀ it ∈ listPageItems list, it.product.isSome) →
      getListItemsNormalize lid lenv = .ok (listDetailOk list)) ∧
    (lenv.getShoppingListV2 = none →
      getListItemsNormalize lid lenv =
        .error (.validation ("Shopping list with ID \"" ++ lid ++ "\" not found"))) := by
  refine ⟨?_, ?_, ?_⟩
  · intro h
    exact mapM_ok_of_agree _ _ _ (fun p hp => normalizeSearchItem_ok p (h p hp))
  · intro list hl h
    have hm := mapM_ok_of_agree normalizeListItem normalizeListItemOk (listPageItems list)
      (fun it hit => normalizeListItem_ok it (h it hit))
    have hloop : List.mapM.loop normalizeListItem (listPageItems list) []
        = Except.ok (List.map normalizeListItemOk (listPageItems list)) := hm
    simp [getListItemsNormalize, hl, hloop, listDetailOk]
  · intro hl
    simp [getListItemsNormalize, hl]

/-- Witness for the amended C3: a sparse envelope (absent arrays, absent
optional objects) whose one item does carry `inventory` normalizes
without throwing. -/
theorem sparse_normalizers_total_witness :
    searchProductsNormalize
      (SparseSearchEnvelope.mk (some (SparseProductSearch.mk (some (SparseSearchGrid.mk
        (some [SparseSearchItem.mk (some "100") (some "Basic Product") none none none
          (some (SparseInventory.mk (some "IN_STOCK")))]))))))
      = .ok ((searchGridItems
        (SparseSearchEnvelope.mk (some (SparseProductSearch.mk (some (SparseSearchGrid.mk
          (some [SparseSearchItem.mk (some "100") (some "Basic Product") none none none
            (some (SparseInventory.mk (some "IN_STOCK")))]))))))).map normalizeSearchItemOk) :=
  (sparse_normalizers_total _ "a1b2c3d4-e5f6-7890-abcd-ef1234567890"
    (SparseListEnvelope.mk none)).1 (by decide)

/-- Claim C5: for a well-formed search response (every item carries its
identifier, display name and inventory object) the normalizer yields
exactly one output per input item, in order, with defined identifier and
name and with the availability mapping of the spec (`IN_STOCK` and
`LOW_STOCK` pass through, everything else becomes `OUT_OF_STOCK`). -/
theorem searchNormalizer_wellFormed (env : SparseSearchEnvelope)
    (h : ∀ p ∈ searchGridItems env,
      p.id.isSome ∧ p.fullDisplayName.isSome ∧ p.inventory.isSome) :
    searchProductsNormalize env = .ok ((searchGridItems env).map normalizeSearchItemOk) ∧
    ((searchGridItems env).map normalizeSearchItemOk).length = (searchGridItems env).length ∧
    (∀ pr ∈ (searchGridItems env).map normalizeSearchItemOk,
      pr.productId.isSome ∧ pr.name.isSome ∧
      (pr.availability = "IN_STOCK" ∨ pr.availability = "LOW_STOCK" ∨
        pr.availability = "OUT_OF_STOCK")) ∧
    (∀ (i : Nat) (p : SparseSearchItem), (searchGridItems env)[i]? = some p →
      ((searchGridItems env).map normalizeSearchItemOk)[i]?
          = some (normalizeSearchItemOk p) ∧
      (normalizeSearchItemOk p).productId = p.id ∧
      (normalizeSearchItemOk p).name = p.fullDisplayName ∧
      (normalizeSearchItemOk p).availability
          = specAvailability (p.inventory.bind (fun inv => inv.inventoryState))) := by
  refine ⟨?_, List.length_map _ _, ?_, ?_⟩
  · exact mapM_ok_of_agree _ _ _ (fun p hp => normalizeSearchItem_ok p (h p hp).2.2)
  · intro pr hpr
    obtain ⟨p, hp, rfl⟩ := List.mem_map.mp hpr
    refine ⟨(h p hp).1, (h p hp).2.1, ?_⟩
    exact specAvailability_cases _
  · intro i p hi
    refine ⟨?_, rfl, rfl, rfl⟩
    rw [List.getElem?_map, hi]
    rfl

/-- Witness for C5: the spec's scenario item (`id`, name, one SKU with
an `ONLINE` price, `IN_STOCK` inventory) normalizes successfully. -/
theorem searchNormalizer_wellFormed_witness :
    searchProductsNormalize
      (SparseSearchEnvelope.mk (some (SparseProductSearch.mk (some (SparseSearchGrid.mk
        (some [SparseSearchItem.mk (some "12345") (some "HEB Organic Large Eggs")
          (some [SparseSKU.mk (some [SparseContextPrice.mk (some "ONLINE")
            (some (SparseSalePrice.mk (some 399)))]) (some "12 ct")])
          none none (some (SparseInventory.mk (some "IN_STOCK")))]))))))
      = .ok ((searchGridItems
        (SparseSearchEnvelope.mk (some (SparseProductSearch.mk (some (SparseSearchGrid.mk
          (some [SparseSearchItem.mk (some "12345") (some "HEB Organic Large Eggs")
            (some [SparseSKU.mk (some [SparseContextPrice.mk (some "ONLINE")
              (some (SparseSalePrice.mk (some 399)))]) (some "12 ct")])
            none none (some (SparseInventory.mk (some "IN_STOCK")))]))))))).map
        normalizeSearchItemOk) :=
  (searchNormalizer_wellFormed _ (by decide)).1

/-- Claim C6 counterexample: in the array
`[{url: "https://images.heb.com/a.jpg", size: "SMALL"}, {url: "", size:
"MEDIUM"}]` the unique `MEDIUM` entry is not the selected image — the
`||` fallback treats its empty url as falsy and the first entry's url is
selected instead, so "the entry whose size equals MEDIUM is chosen" fails
as stated. -/
theorem selectImageUrl_mediumEmpty :
    selectImageUrl (some [SparseImage.mk (some "https://images.heb.com/a.jpg") (some "SMALL"),
        SparseImage.mk (some "") (some "MEDIUM")])
      = some "https://images.heb.com/a.jpg" ∧
    (SparseImage.mk (some "") (some "MEDIUM")).size = some "MEDIUM" ∧
    (SparseImage.mk (some "https://images.heb.com/a.jpg") (some "SMALL")).size
      ≠ some "MEDIUM" ∧
    some "https://images.heb.com/a.jpg" ≠ (SparseImage.mk (some "") (some "MEDIUM")).url := by
  refine ⟨by decide, rfl, by decide, by decide⟩

/-- Claim C6 (amended): for every image array whose entries all carry a
present, non-empty url, the selection — shared verbatim between the
search normalizer and the list-items normalizer via `selectImageUrl` —
picks the unique `MEDIUM`-sized entry regardless of its position; with
no `MEDIUM` entry it picks the first entry; an empty or absent array
selects nothing (the image field is omitted). -/
theorem selectImageUrl_policy (imgs : List SparseImage)
    (hurl : ∀ img ∈ imgs, img.url.isSome ∧ img.url ≠ some "") :
    (∀ m ∈ imgs, m.size = some "MEDIUM" →
      (∀ n ∈ imgs, n.size = some "MEDIUM" → n = m) →
      selectImageUrl (some imgs) = m.url) ∧
    ((∀ n ∈ imgs, n.size ≠ some "MEDIUM") →
      ∀ x t, imgs = x :: t → selectImageUrl (some imgs) = x.url) ∧
    selectImageUrl (some []) = none ∧
    selectImageUrl none = none := by
  refine ⟨?_, ?_, rfl, rfl⟩
  · intro m hm hsize huniq
    cases hf : imgs.find? (fun img => img.size = some "MEDIUM") with
    | none =>
      exact absurd (by simpa using List.find?_eq_none.mp hf m hm) (by simp [hsize])
    | some a =>
      have hamem : a ∈ imgs := List.mem_of_find?_eq_some hf
      have hasize : a.size = some "MEDIUM" := by simpa using List.find?_some hf
      have haeq : a = m := huniq a hamem hasize
      subst haeq
      obtain ⟨hsome, hne⟩ := hurl a hamem
      cases hu : a.url with
      | none => simp [hu] at hsome
      | some u =>
        have hune : u ≠ "" := by
          intro he
          subst he
          exact hne hu
        simp [selectImageUrl, hf, hu, jsOrStr, hune]
  · intro hnone x t hcons
    have hfind : imgs.find? (fun img => img.size = some "MEDIUM") = none := by
      rw [List.find?_eq_none]
      intro y hy
      simp [hnone y hy]
    subst hcons
    simp [selectImageUrl, hfind, jsOrStr]

/-- Witness for the amended C6: the unique `MEDIUM` entry in the middle
of the array is selected. -/
theorem selectImageUrl_policy_witness :
    selectImageUrl (some [SparseImage.mk (some "https://images.heb.com/small.jpg") (some "SMALL"),
        SparseImage.mk (some "https://images.heb.com/medium.jpg") (some "MEDIUM"),
        SparseImage.mk (some "https://images.heb.com/large.jpg") (some "LARGE")])
      = (SparseImage.mk (some "https://images.heb.com/medium.jpg") (some "MEDIUM")).url :=
  (selectImageUrl_policy
    [SparseImage.mk (some "https://images.heb.com/small.jpg") (some "SMALL"),
      SparseImage.mk (some "https://images.heb.com/medium.jpg") (some "MEDIUM"),
      SparseImage.mk (some "https://images.heb.com/large.jpg") (some "LARGE")]
    (by decide)).1
    (SparseImage.mk (some "https://images.heb.com/medium.jpg") (some "MEDIUM"))
    (by decide) (by decide) (by decide)

/-- Claim C4 counterexample: on the allrecipes server a network error
thrown by the tool body escapes the `CallToolRequestSchema` handler as a
thrown fault — the handler re-throws instead of returning the
error-indicator result shape. -/
theorem allrecipes_error_escapes :
    allrecipesCallToolHandler "get_recipe"
      (fun n => if n = "get_recipe" then some (.error (.error "Network failure")) else none)
      = .error (.error "Network failure") ∧
    escapedAsThrown (allrecipesCallToolHandler "get_recipe"
      (fun n => if n = "get_recipe" then some (.error (.error "Network failure")) else none))
      = true := by
  exact ⟨by decide, by decide⟩

/-- Claim C4 (amended): the HEB server's handler converts every outcome
— success, thrown typed error, unknown tool — into a returned result
(error-indicator shape on failure), while the allrecipes server's
handler re-throws: thrown errors (Zod validation errors rewrapped with
their joined issues) escape its dispatch boundary as faults. -/
theorem toolDispatch_boundary (toolName : String)
    (tools : String → Option (Except ThrownError String)) :
    (∀ t, tools toolName = some (.ok t) →
      hebCallToolHandler toolName tools = ToolCallResult.mk t false) ∧
    (∀ e, tools toolName = some (.error e) →
      hebCallToolHandler toolName tools
        = ToolCallResult.mk ("Error: " ++ e.messageOf) true) ∧
    (tools toolName = none →
      hebCallToolHandler toolName tools
        = ToolCallResult.mk ("Error: " ++ ("Unknown tool: " ++ toolName)) true) ∧
    (∀ t, tools toolName = some (.ok t) →
      allrecipesCallToolHandler toolName tools = .ok (ToolCallResult.mk t false)) ∧
    (∀ m, tools toolName = some (.error (.error m)) →
      allrecipesCallToolHandler toolName tools = .error (.error m)) ∧
    (∀ m issues, tools toolName = some (.error (.zodError m issues)) →
      allrecipesCallToolHandler toolName tools
        = .error (.error ("Invalid arguments: " ++ String.intercalate ", " issues))) := by
  refine ⟨?_, ?_, ?_, ?_, ?_, ?_⟩
  · intro t h
    simp [hebCallToolHandler, h]
  · intro e h
    simp [hebCallToolHandler, h]
  · intro h
    simp [hebCallToolHandler, h, ThrownError.messageOf]
  · intro t h
    simp [allrecipesCallToolHandler, h]
  · intro m h
    simp [allrecipesCallToolHandler, h]
  · intro m issues h
    simp [allrecipesCallToolHandler, h]

/-- Witness for the amended C4: a thrown network error is converted to
the error-indicator result by the HEB handler. -/
theorem toolDispatch_boundary_witness :
    hebCallToolHandler "heb_search_products"
      (fun n => if n = "heb_search_products"
        then some (.error (.error "Network error. Please check your internet connection."))
        else none)
      = ToolCallResult.mk
        ("Error: " ++ ThrownError.messageOf
          (.error "Network error. Please check your internet connection.")) true :=
  (toolDispatch_boundary "heb_search_products"
    (fun n => if n = "heb_search_products"
      then some (.error (.error "Network error. Please check your internet connection."))
      else none)).2.1
    (.error "Network error. Please check your internet connection.") (by decide)

/-- Claim C7 counterexample: the candidate line `"Stir well. "` has
length 11, yet the HTML fallback discards it — the code trims the text
before the length test, the trimmed text `"Stir well."` has length 10,
and neither the raw line nor its trimmed text reaches the final
instructions list.  This refutes "every candidate line of length 11 or
more is kept". -/
theorem instructionFilter_trim_discards :
    ("Stir well. " : String).length = 11 ∧
    collectInstructions ["Stir well. ", "Mix all ingredients together in a large bowl."]
      = ["Mix all ingredients together in a large bowl."] ∧
    "Stir well. " ∉ collectInstructions
      ["Stir well. ", "Mix all ingredients together in a large bowl."] ∧
    jsTrim "Stir well. " ∉ collectInstructions
      ["Stir well. ", "Mix all ingredients together in a large bowl."] := by
  refine ⟨by decide, by decide, by decide, by decide⟩

/-- Claim C7 (amended): in the HTML fallback tier each candidate's text
is trimmed before the test — a candidate whose trimmed text has length
at most 10 (whitespace-only included) is discarded, a candidate whose
trimmed text has length 11 or more is kept and appears as its trimmed
text, and every entry of the final instructions list has length at
least 11. -/
theorem instructionFilter_threshold (candidates : List String) (s : String)
    (hmem : s ∈ candidates) :
    ((jsTrim s).length ≤ 10 → jsTrim s ∉ collectInstructions candidates) ∧
    (11 ≤ (jsTrim s).length → jsTrim s ∈ collectInstructions candidates) ∧
    (∀ t ∈ collectInstructions candidates, 11 ≤ t.length) := by
  have hmembers : ∀ t ∈ collectInstructions candidates, 11 ≤ t.length := by
    intro t ht
    have hkeep := (List.mem_filter.mp ht).2
    simp at hkeep
    omega
  refine ⟨?_, ?_, hmembers⟩
  · intro hlen hin
    have := hmembers (jsTrim s) hin
    omega
  · intro hlen
    refine List.mem_filter.mpr ⟨List.mem_map_of_mem jsTrim hmem, ?_⟩
    have hne : jsTrim s ≠ "" := by
      intro he
      rw [he] at hlen
      simp at hlen
    simp [hne]
    omega

/-- Witness for the amended C7: the scenario candidates — a short line
is dropped, a long line is kept as its trimmed text. -/
theorem instructionFilter_threshold_witness :
    jsTrim "Short" ∉ collectInstructions
      ["Short", "This instruction is long enough to pass the filter."] ∧
    jsTrim "This instruction is long enough to pass the filter." ∈ collectInstructions
      ["Short", "This instruction is long enough to pass the filter."] := by
  constructor
  · exact (instructionFilter_threshold
      ["Short", "This instruction is long enough to pass the filter."] "Short"
      (by decide)).1 (by decide)
  · exact (instructionFilter_threshold
      ["Short", "This instruction is long enough to pass the filter."]
      "This instruction is long enough to pass the filter." (by decide)).2.1 (by decide)

/-- Claim C10: in the `productName` branch of `removeFromList`, the item
identifiers sent in the delete request are exactly those of the list
items whose display name contains the product name case-insensitively,
`removedCount` equals the number of matches, and a `NotFoundError` is
raised when the list is empty or nothing matches. -/
theorem removeFromList_byName (listId productName : String) (items : List RItem)
    (resp : SparseDeleteList) :
    (items = [] →
      removeFromListByName listId productName items (some resp)
        = .error (.notFound
          "Items with ID \"in shopping list\" not found. Please verify and try again.")) ∧
    (items ≠ [] →
      items.filter (fun item => itemNameMatches productName item.name) = [] →
      removeFromListByName listId productName items (some resp)
        = .error (.notFound
          ("Item with ID \"" ++ productName ++ "\" not found. Please verify and try again."))) ∧
    (∀ q r, removeFromListByName listId productName items (some resp) = .ok (q, r) →
      (∀ i : String, i ∈ q.input.itemIds ↔
        ∃ item ∈ items, item.id = i ∧ itemNameMatches productName item.name = true) ∧
      r.removedCount
        = (items.filter (fun item => itemNameMatches productName item.name)).length ∧
      q.input.listId = listId ∧ q.operationName = "deleteShoppingListItems") := by
  refine ⟨?_, ?_, ?_⟩
  · intro he
    subst he
    simp [removeFromListByName]
  · intro hne hfil
    have h1 : ¬items.length = 0 := by simpa [List.length_eq_zero] using hne
    simp [removeFromListByName, h1, hfil]
  · intro q r hok
    by_cases h1 : items.length = 0
    · simp [removeFromListByName, h1] at hok
    · by_cases h2 : (items.filter (fun item => itemNameMatches productName item.name)).length = 0
      · simp [removeFromListByName, h1, h2] at hok
      · simp [removeFromListByName, h1, h2] at hok
        obtain ⟨hq, hr⟩ := hok
        subst hq
        subst hr
        refine ⟨?_, ?_, rfl, rfl⟩
        · intro i
          simp only [createRemoveFromListQuery, List.mem_map, List.mem_filter]
          constructor
          · rintro ⟨item, ⟨hin, hmatch⟩, hid⟩
            exact ⟨item, hin, hid, hmatch⟩
          · rintro ⟨item, hin, hid, hmatch⟩
            exact ⟨item, ⟨hin, hmatch⟩, hid⟩
        · simp
  
/-- Witness for C10: "eggs" matches the first of two items; exactly its
id is sent and `removedCount` is 1. -/
theorem removeFromList_byName_witness :
    (RemoveResult.mk true 1 (some "list-1") (some "My Groceries")
        "Successfully removed 1 item(s) from \"My Groceries\"").removedCount
      = ([RItem.mk "item-1" "HEB Organic Large Eggs", RItem.mk "item-2" "HEB Whole Milk"].filter
          (fun item => itemNameMatches "eggs" item.name)).length := by
  have h := (removeFromList_byName "a1b2c3d4-e5f6-7890-abcd-ef1234567890" "eggs"
      [RItem.mk "item-1" "HEB Organic Large Eggs", RItem.mk "item-2" "HEB Whole Milk"]
      (SparseDeleteList.mk (some "list-1") (some "My Groceries"))).2.2
    (createRemoveFromListQuery "a1b2c3d4-e5f6-7890-abcd-ef1234567890" ["item-1"])
    (RemoveResult.mk true 1 (some "list-1") (some "My Groceries")
      "Successfully removed 1 item(s) from \"My Groceries\"")
    (by decide)
  exact h.2.1
